import Mathlib

/-!
Shallow embedding of `cmd/root.go` of waybar-openweathermap-widget.

Go strings are modelled as lists of Unicode characters (`Str`), Go
`float64` values as exact rationals (`ℚ`), and the external effects of
the `Run` function (the openweathermap client initialisation, the
network query and local-timezone time formatting) as explicit
parameters of the `run` model.
-/

set_option autoImplicit false

namespace OWM

/-- Go strings, modelled as lists of Unicode characters. -/
abbrev Str := List Char

/-- Models Go `unicode.IsSpace` (the White_Space property; listed here are
all White_Space code points). -/
def isSpace (c : Char) : Bool :=
  [' ', '\t', '\n', '\x0B', '\x0C', '\r', '\u0085', '\u00A0', '\u1680',
   '\u2000', '\u2001', '\u2002', '\u2003', '\u2004', '\u2005', '\u2006', '\u2007',
   '\u2008', '\u2009', '\u200A', '\u2028', '\u2029', '\u202F', '\u205F', '\u3000'].contains c

/-- Models Go `strings.TrimLeftFunc(s, unicode.IsSpace)`. -/
def trimLeftSpace (s : Str) : Str := s.dropWhile isSpace

/-- ASCII letter test, for the title caser model. -/
def isAsciiLetter (c : Char) : Bool :=
  ('a' ≤ c && c ≤ 'z') || ('A' ≤ c && c ≤ 'Z')

/-- ASCII upper-casing of a single character. -/
def upperA (c : Char) : Char :=
  if 'a' ≤ c && c ≤ 'z' then Char.ofNat (c.toNat - 32) else c

/-- ASCII lower-casing of a single character. -/
def lowerA (c : Char) : Char :=
  if 'A' ≤ c && c ≤ 'Z' then Char.ofNat (c.toNat + 32) else c

/-- Helper for `titleCase`: the boolean records whether the previous
character belonged to a word. -/
def titleCaseAux : Bool → Str → Str
  | _, [] => []
  | inWord, c :: rest =>
    if isAsciiLetter c then
      (if inWord then lowerA c else upperA c) :: titleCaseAux true rest
    else
      c :: titleCaseAux false rest

/-- Models `cases.Title(language.German).String` on the ASCII range
(the German caser agrees with the default caser there): the first letter
of each word is upper-cased, the rest of the word lower-cased, and
non-letters are kept unchanged. -/
def titleCase (s : Str) : Str := titleCaseAux false s

/-- Models the `text` function of `cmd/root.go`: `strings.Join` of the
icon, a space, the temperature string, and the unit suffix, with the
empty separator. -/
def text (icon temp : Str) : Str :=
  icon ++ " ".data ++ temp ++ " °C".data

/-- Models the `tooltip` function of `cmd/root.go`: the title-cased
description followed by the six labelled fields, joined with the empty
separator, with leading white space trimmed from the result. -/
def tooltip (desc feelsLike pressure humidity sunrise sunset windspeed : Str) : Str :=
  trimLeftSpace (titleCase desc ++ "\n".data ++
    "Feels like ".data ++ feelsLike ++ " °C\n".data ++
    "Pressure ".data ++ pressure ++ " hPa\n".data ++
    "Humidity ".data ++ humidity ++ "%\n".data ++
    "Sunrise ".data ++ sunrise ++ "\n".data ++
    "Sunset ".data ++ sunset ++ "\n".data ++
    "Wind speed ".data ++ windspeed ++ " m/sec".data)

/-- Splitting a string at newline characters; used to state which lines
the tooltip consists of. -/
def splitLines : Str → List Str
  | [] => [[]]
  | c :: rest =>
    if c = '\n' then [] :: splitLines rest
    else
      match splitLines rest with
      | [] => [[c]]
      | l :: ls => (c :: l) :: ls

/-- First-match association-list lookup; models Go map indexing on the
literal `icons` map (whose keys are pairwise distinct). -/
def lookupStr : List (Str × Str) → Str → Option Str
  | [], _ => none
  | (k, v) :: rest, code => if code = k then some v else lookupStr rest code

/-- The `icons` map literal of `cmd/root.go`. -/
def icons : List (Str × Str) :=
  [("01d".data, "☀️".data),
   ("02d".data, "⛅️".data),
   ("03d".data, "☁️".data),
   ("04d".data, "☁️".data),
   ("09d".data, "🌧️".data),
   ("10d".data, "🌦️".data),
   ("11d".data, "⛈️".data),
   ("13d".data, "🌨️".data),
   ("50d".data, "🌫".data),
   ("01n".data, "☀️".data),
   ("02n".data, "⛅️".data),
   ("03n".data, "☁️".data),
   ("04n".data, "☁️".data),
   ("09n".data, "🌧️".data),
   ("10n".data, "🌦️".data),
   ("11n".data, "⛈️".data),
   ("13n".data, "🌨️".data),
   ("50n".data, "🌫".data)]

/-- Models the Go map read `icons[code]`: the mapped value, or the zero
value (the empty string) when the key is absent. -/
def iconLookup (code : Str) : Str := (lookupStr icons code).getD []

/-! ### Numbers: parsing and rendering

Go `float64` values are modelled as exact rationals. -/

/-- Decimal digit test. -/
def isDigit (c : Char) : Bool := '0' ≤ c && c ≤ '9'

/-- Numeric value of a list of decimal digits. -/
def digitsToNat (l : Str) : ℕ :=
  l.foldl (fun a c => 10 * a + (c.toNat - 48)) 0

/-- Models `strconv.ParseFloat(s, 64)` on the plain decimal forms
`[+-]digits[.digits]` and `[+-].digits` (the exponent, hexadecimal and
infinity/NaN forms accepted by Go do not occur in coordinate input and
are not modelled); `none` models a parse error. -/
def parseFloat (s : Str) : Option ℚ :=
  let core : Str → Option ℚ := fun r =>
    let ip := r.takeWhile isDigit
    match r.dropWhile isDigit with
    | [] => if ip = [] then none else some (digitsToNat ip)
    | c :: fp =>
      if c = '.' ∧ fp.all isDigit ∧ ¬(ip = [] ∧ fp = []) then
        some ((digitsToNat ip : ℚ) + (digitsToNat fp : ℚ) / (10 : ℚ) ^ fp.length)
      else none
  match s with
  | [] => core []
  | c :: r =>
    if c = '-' then (core r).map (fun q => -q)
    else if c = '+' then core r
    else core (c :: r)

/-- Models the Go conversion `int64(x)` of a `float64`: the fractional
part is discarded, truncating towards zero. -/
def truncF (q : ℚ) : ℤ := if 0 ≤ q then ⌊q⌋ else ⌈q⌉

/-- Rounding to the nearest integer, ties to even: the rounding used by
`strconv.FormatFloat` when discarding fractional digits. -/
def roundHalfEven (q : ℚ) : ℤ :=
  let f := ⌊q⌋
  if q - f < 1 / 2 then f
  else if 1 / 2 < q - f then f + 1
  else if f % 2 = 0 then f else f + 1

/-- The single decimal digit character for `n % 10`. -/
def digitChar (n : ℕ) : Char := Char.ofNat (48 + n % 10)

/-- Decimal digits of a natural number, most significant first; the
first argument is fuel, always called with enough of it. -/
def natDigitsAux : ℕ → ℕ → Str
  | 0, _ => []
  | fuel + 1, n =>
    if n < 10 then [digitChar n]
    else natDigitsAux fuel (n / 10) ++ [digitChar (n % 10)]

/-- Decimal digit string of a natural number. -/
def natDigits (n : ℕ) : Str := natDigitsAux (n + 1) n

/-- Models `strconv.FormatInt(n, 10)`. -/
def formatIntStr (n : ℤ) : Str :=
  if n < 0 then '-' :: natDigits n.natAbs else natDigits n.natAbs

/-- Left-pads a digit string with zeros to the given length. -/
def padZeros (l : Str) (len : ℕ) : Str :=
  List.replicate (len - l.length) '0' ++ l

/-- Models `strconv.FormatFloat(q, 'f', prec, 64)` for a non-negative
precision: the value is rounded to `prec` fractional digits (nearest,
ties to even) and printed without an exponent. -/
def formatFixed (q : ℚ) (prec : ℕ) : Str :=
  if prec = 0 then formatIntStr (roundHalfEven q)
  else
    let n := roundHalfEven (q * (10 : ℚ) ^ prec)
    let a := n.natAbs
    (if n < 0 then ['-'] else []) ++
      natDigits (a / 10 ^ prec) ++ '.' :: padZeros (natDigits (a % 10 ^ prec)) prec

/-! ### Condition lookup -/

/-- One entry of the openweathermap condition tables: a numeric ID and
its description. -/
structure ConditionData where
  ID : ℤ
  Meaning : Str
deriving DecidableEq

/-- The inner loop of `description`: first entry of the group whose
`ID` matches, if any. -/
def descGroup (id : ℤ) : List ConditionData → Option Str
  | [] => none
  | c :: cs => if c.ID = id then some c.Meaning else descGroup id cs

/-- The outer loop of `description` over the list of groups; returns the
empty string when every group misses. -/
def searchGroups (id : ℤ) : List (List ConditionData) → Str
  | [] => []
  | g :: gs =>
    match descGroup id g with
    | some m => m
    | none => searchGroups id gs

/-- The seven condition tables of the openweathermap library, external
data threaded through the model as parameters. -/
structure ConditionTables where
  thunderstorm : List ConditionData
  drizzle : List ConditionData
  rain : List ConditionData
  snow : List ConditionData
  atmosphere : List ConditionData
  cloud : List ConditionData
  additional : List ConditionData

/-- Models the `description` function of `cmd/root.go`: linear search
of the groups in the fixed source order thunderstorm, drizzle, rain,
snow, atmosphere, cloud, additional. -/
def description (tbl : ConditionTables) (id : ℤ) : Str :=
  searchGroups id
    [tbl.thunderstorm, tbl.drizzle, tbl.rain, tbl.snow,
     tbl.atmosphere, tbl.cloud, tbl.additional]

/-! ### Provider response and the output record -/

/-- The fields of `request.Main` consumed by `Run`. -/
structure MainW where
  temp : ℚ
  feelsLike : ℚ
  pressure : ℚ
  humidity : ℚ
deriving DecidableEq

/-- One entry of `request.Weather`. -/
structure WeatherEntry where
  icon : Str
  id : ℤ
deriving DecidableEq

/-- The fields of `request.Sys` consumed by `Run`. -/
structure SysW where
  sunrise : ℤ
  sunset : ℤ
deriving DecidableEq

/-- The fields of `request.Wind` consumed by `Run`. -/
structure WindW where
  speed : ℚ
deriving DecidableEq

/-- The provider response fields consumed by `Run`. -/
structure Response where
  main : MainW
  weather : List WeatherEntry
  sys : SysW
  wind : WindW
deriving DecidableEq

/-- The `result` struct of `cmd/root.go` (its `class` field is renamed,
`class` being reserved in Lean). -/
structure ResultRec where
  text : Str
  tooltip : Str
  className : Str
deriving DecidableEq

/-- Hexadecimal digit character for `n % 16`. -/
def hexDigit (n : ℕ) : Char :=
  if n % 16 < 10 then Char.ofNat (48 + n % 16) else Char.ofNat (87 + n % 16)

/-- JSON escaping of one character as performed by Go `encoding/json`
(with its default HTML escaping of angle brackets and ampersands). -/
def jsonEscapeChar (c : Char) : Str :=
  if c = '"' then ['\\', '"']
  else if c = '\\' then ['\\', '\\']
  else if c = '\n' then ['\\', 'n']
  else if c = '\r' then ['\\', 'r']
  else if c = '\t' then ['\\', 't']
  else if c = '<' then ['\\', 'u', '0', '0', '3', 'c']
  else if c = '>' then ['\\', 'u', '0', '0', '3', 'e']
  else if c = '&' then ['\\', 'u', '0', '0', '2', '6']
  else if c.toNat < 32 then
    ['\\', 'u', '0', '0', hexDigit (c.toNat / 16), hexDigit (c.toNat % 16)]
  else if c = '\u2028' then ['\\', 'u', '2', '0', '2', '8']
  else if c = '\u2029' then ['\\', 'u', '2', '0', '2', '9']
  else [c]

/-- A JSON string literal with Go `encoding/json` escaping. -/
def jsonString (s : Str) : Str :=
  '"' :: (s.flatMap jsonEscapeChar) ++ ['"']

/-- Models `json.Marshal` on the fixed-shape `result` struct with its
three string fields tagged `text`, `tooltip`, `class`. -/
def jsonMarshal (r : ResultRec) : Str :=
  '\x7b' :: (jsonString "text".data ++ ':' :: jsonString r.text ++
    ',' :: jsonString "tooltip".data ++ ':' :: jsonString r.tooltip ++
    ',' :: jsonString "class".data ++ ':' :: jsonString r.className) ++ ['\x7d']

/-! ### The Run orchestrator -/

/-- The coordinate pair transmitted to the provider. -/
structure Coordinates where
  longitude : ℚ
  latitude : ℚ
deriving DecidableEq

/-- How one invocation of `Run` ends: one of the `log.Fatalf` exits, the
runtime panic of an out-of-range index, or the JSON output written to
standard output. -/
inductive RunResult where
  | fatalParseLong
  | fatalParseLat
  | fatalInit
  | fatalQuery
  | panicIndexOutOfRange
  | output (r : ResultRec)
deriving DecidableEq

/-- The process exit code of each ending: `log.Fatalf` exits with 1, a
Go runtime panic exits with 2, success with 0. -/
def exitCode : RunResult → ℕ
  | .output _ => 0
  | .panicIndexOutOfRange => 2
  | _ => 1

/-- What one invocation did: its ending, every coordinate pair sent to
the provider, and the bytes written to standard output. -/
structure RunTrace where
  result : RunResult
  queried : List Coordinates
  stdout : Str
deriving DecidableEq

/-- Lines 110-133 of `cmd/root.go`: field extraction and construction
of the `result` struct, given the first weather entry `w0`.  `fmtTime`
stands for `time.Unix(·, 0).Format("15:04 MST")` in the ambient local
timezone, `tbl` for the openweathermap condition tables. -/
def buildResult (fmtTime : ℤ → Str) (tbl : ConditionTables)
    (resp : Response) (w0 : WeatherEntry) : ResultRec where
  text := text (iconLookup w0.icon) (formatFixed resp.main.temp 1)
  tooltip := tooltip (description tbl w0.id)
    (formatIntStr (truncF resp.main.feelsLike))
    (formatIntStr (truncF resp.main.pressure))
    (formatIntStr (truncF resp.main.humidity))
    (fmtTime resp.sys.sunrise)
    (fmtTime resp.sys.sunset)
    (formatFixed resp.wind.speed 0)
  className := "weather".data

/-- The `Run` closure of `rootCmd` on its three positional arguments.
External effects are parameters: `initErr` is the error behaviour of
`openweathermap.NewCurrent` on the given API key, `query` the response
of the provider as a function of the transmitted coordinates. The trace records
each coordinate pair the provider was queried with and everything
written to standard output. -/
def run (fmtTime : ℤ → Str) (tbl : ConditionTables) (initErr : Option Str)
    (query : Coordinates → Except Str Response) (a0 a1 a2 : Str) : RunTrace :=
  match parseFloat a0 with
  | none => ⟨.fatalParseLong, [], []⟩
  | some long =>
    match parseFloat a1 with
    | none => ⟨.fatalParseLat, [], []⟩
    | some lat =>
      match initErr with
      | some _ => ⟨.fatalInit, [], []⟩
      | none =>
        let coord : Coordinates := { longitude := long, latitude := lat }
        match query coord with
        | .error _ => ⟨.fatalQuery, [coord], []⟩
        | .ok resp =>
          match resp.weather with
          | [] => ⟨.panicIndexOutOfRange, [coord], []⟩
          | w0 :: _ =>
            let r := buildResult fmtTime tbl resp w0
            ⟨.output r, [coord], jsonMarshal r⟩

/-! ### Helper lemmas -/

theorem lookupStr_eq_none {l : List (Str × Str)} {code : Str}
    (h : code ∉ l.map Prod.fst) : lookupStr l code = none := by
  induction l with
  | nil => rfl
  | cons p rest ih =>
    obtain ⟨k, v⟩ := p
    simp only [List.map_cons, List.mem_cons, not_or] at h
    simp only [lookupStr, if_neg h.1]
    exact ih h.2

theorem run_success_eq (fmtTime : ℤ → Str) (tbl : ConditionTables)
    (query : Coordinates → Except Str Response) (a0 a1 a2 : Str) (v0 v1 : ℚ)
    (resp : Response) (w0 : WeatherEntry) (ws : List WeatherEntry)
    (h0 : parseFloat a0 = some v0) (h1 : parseFloat a1 = some v1)
    (hq : query ⟨v0, v1⟩ = .ok resp) (hw : resp.weather = w0 :: ws) :
    run fmtTime tbl none query a0 a1 a2 =
      ⟨.output (buildResult fmtTime tbl resp w0), [⟨v0, v1⟩],
       jsonMarshal (buildResult fmtTime tbl resp w0)⟩ := by
  simp [run, h0, h1, hq, hw]

theorem descGroup_append (id : ℤ) (l₁ l₂ : List ConditionData) :
    descGroup id (l₁ ++ l₂) =
      (descGroup id l₁).orElse (fun _ => descGroup id l₂) := by
  induction l₁ with
  | nil => simp [descGroup]
  | cons c cs ih =>
    by_cases h : c.ID = id
    · simp [descGroup, h]
    · simp [descGroup, h, ih]

theorem descGroup_eq_find? (id : ℤ) (l : List ConditionData) :
    descGroup id l =
      (l.find? (fun c => c.ID == id)).map ConditionData.Meaning := by
  induction l with
  | nil => rfl
  | cons c cs ih =>
    by_cases h : c.ID = id
    · simp [descGroup, h, List.find?]
    · simp only [descGroup, if_neg h, ih, List.find?]
      have hb : (c.ID == id) = false := by simpa using h
      simp [hb]

theorem searchGroups_eq (id : ℤ) (gs : List (List ConditionData)) :
    searchGroups id gs = (descGroup id gs.flatten).getD [] := by
  induction gs with
  | nil => rfl
  | cons g rest ih =>
    cases h : descGroup id g with
    | none =>
      simp only [searchGroups, h, List.flatten_cons, descGroup_append, Option.orElse]
      exact ih
    | some m =>
      simp only [searchGroups, h, List.flatten_cons, descGroup_append, Option.orElse,
        Option.getD_some]

theorem splitLines_append {xs : Str} (r : Str) (h : '\n' ∉ xs) :
    splitLines (xs ++ '\n' :: r) = xs :: splitLines r := by
  induction xs with
  | nil => simp [splitLines]
  | cons c cs ih =>
    simp only [List.mem_cons, not_or] at h
    have hc : ¬(c = '\n') := fun hcc => h.1 hcc.symm
    rw [List.cons_append]
    simp only [splitLines, if_neg hc, ih h.2]

theorem splitLines_no_newline {xs : Str} (h : '\n' ∉ xs) :
    splitLines xs = [xs] := by
  induction xs with
  | nil => rfl
  | cons c cs ih =>
    simp only [List.mem_cons, not_or] at h
    have hc : ¬(c = '\n') := fun hcc => h.1 hcc.symm
    simp only [splitLines, if_neg hc, ih h.2]

theorem isDigit_digitChar (n : ℕ) : isDigit (digitChar n) = true := by
  unfold digitChar
  have hlt : n % 10 < 10 := Nat.mod_lt _ (by norm_num)
  generalize hk : n % 10 = k at hlt ⊢
  interval_cases k <;> decide

theorem natDigitsAux_all_digits (fuel n : ℕ) :
    ∀ c ∈ natDigitsAux fuel n, isDigit c = true := by
  induction fuel generalizing n with
  | zero => intro c hc; simp [natDigitsAux] at hc
  | succ fuel ih =>
    intro c hc
    simp only [natDigitsAux] at hc
    by_cases h : n < 10
    · rw [if_pos h] at hc
      simp only [List.mem_singleton] at hc
      subst hc
      exact isDigit_digitChar n
    · rw [if_neg h] at hc
      rcases List.mem_append.mp hc with h' | h'
      · exact ih _ _ h'
      · simp only [List.mem_singleton] at h'
        subst h'
        exact isDigit_digitChar (n % 10)

/-! ### Concrete instances used by witnesses -/

/-- A trivial time formatter, standing in for an arbitrary local
timezone in concrete runs. -/
def noTime : ℤ → Str := fun _ => []

/-- Empty condition tables, for concrete runs that never consult them. -/
def emptyTables : ConditionTables := ⟨[], [], [], [], [], [], []⟩

/-- A provider that always fails the query. -/
def failQuery : Coordinates → Except Str Response := fun _ => .error []

/-- A fixed response whose only weather entry carries an icon code
absent from the icon table. -/
def respUnknownIcon : Response :=
  { main := ⟨0, 0, 0, 0⟩, weather := [⟨"99x".data, 0⟩], sys := ⟨0, 0⟩, wind := ⟨0⟩ }

/-- A provider that always returns `respUnknownIcon`. -/
def okQueryUnknownIcon : Coordinates → Except Str Response := fun _ => .ok respUnknownIcon

/-- A fixed response with an empty weather-condition list. -/
def respNoWeather : Response :=
  { main := ⟨0, 0, 0, 0⟩, weather := [], sys := ⟨0, 0⟩, wind := ⟨0⟩ }

/-- A provider that always returns `respNoWeather`. -/
def okQueryNoWeather : Coordinates → Except Str Response := fun _ => .ok respNoWeather

/-! ### Claims -/

/-- C1, counterexample: with first argument "1.5" and second argument
"2.5", the coordinate pair transmitted to the provider carries the value
3/2 of the first argument in the longitude field and the value 5/2 of
the second argument in the latitude field; no queried coordinate has the
value of the first argument in its latitude field, so the two parsed
values are not swapped when the pair is built. -/
theorem c1_counterexample :
    parseFloat "1.5".data = some (3 / 2) ∧
    parseFloat "2.5".data = some (5 / 2) ∧
    (run noTime emptyTables none failQuery "1.5".data "2.5".data "key".data).queried =
      [{ longitude := 3 / 2, latitude := 5 / 2 }] ∧
    ¬ ∃ c ∈ (run noTime emptyTables none failQuery "1.5".data "2.5".data "key".data).queried,
        c.latitude = 3 / 2 := by
  have hp0 : parseFloat "1.5".data = some (3 / 2) := by
    have hd : "1.5".data = ['1', '.', '5'] := rfl
    have h1 : List.dropWhile isDigit ['1', '.', '5'] = ['.', '5'] := by decide
    have h2 : List.takeWhile isDigit ['1', '.', '5'] = ['1'] := by decide
    have h3 : digitsToNat ['1'] = 1 := by decide
    have h4 : digitsToNat ['5'] = 5 := by decide
    have h5 : isDigit '5' = true := by decide
    rw [hd]
    simp [parseFloat, h1, h2, h3, h4, h5]
    norm_num
  have hp1 : parseFloat "2.5".data = some (5 / 2) := by
    have hd : "2.5".data = ['2', '.', '5'] := rfl
    have h1 : List.dropWhile isDigit ['2', '.', '5'] = ['.', '5'] := by decide
    have h2 : List.takeWhile isDigit ['2', '.', '5'] = ['2'] := by decide
    have h3 : digitsToNat ['2'] = 2 := by decide
    have h4 : digitsToNat ['5'] = 5 := by decide
    have h5 : isDigit '5' = true := by decide
    rw [hd]
    simp [parseFloat, h1, h2, h3, h4, h5]
    norm_num
  refine ⟨hp0, hp1, ?_, ?_⟩
  · simp [run, hp0, hp1, failQuery]
  · simp [run, hp0, hp1, failQuery]
    norm_num

/-- C1, amended: the parsed values are not swapped: every coordinate
pair the run transmits to the provider carries the value parsed from the
first positional argument in its longitude field and the value parsed
from the second in its latitude field (the cross-wiring is between the
usage string "[lat] [long] [key]" and the parse code, which reads the
first argument as the longitude, not in the coordinate construction). -/
theorem c1_coordinates_built_unswapped (fmtTime : ℤ → Str) (tbl : ConditionTables)
    (initErr : Option Str) (query : Coordinates → Except Str Response)
    (a0 a1 a2 : Str) (v0 v1 : ℚ)
    (h0 : parseFloat a0 = some v0) (h1 : parseFloat a1 = some v1) :
    ∀ c ∈ (run fmtTime tbl initErr query a0 a1 a2).queried,
      c.longitude = v0 ∧ c.latitude = v1 := by
  cases initErr with
  | some e => simp [run, h0, h1]
  | none =>
    cases hq : query ⟨v0, v1⟩ with
    | error e =>
      intro c hc
      simp [run, h0, h1, hq] at hc
      subst hc
      exact ⟨rfl, rfl⟩
    | ok resp =>
      cases hw : resp.weather with
      | nil =>
        intro c hc
        simp [run, h0, h1, hq, hw] at hc
        subst hc
        exact ⟨rfl, rfl⟩
      | cons w0 ws =>
        intro c hc
        simp [run, h0, h1, hq, hw] at hc
        subst hc
        exact ⟨rfl, rfl⟩

/-- C1, witness for the amended theorem at the inputs "1.5" and "2.5". -/
theorem c1_witness :
    parseFloat "1.5".data = some (3 / 2) ∧
    parseFloat "2.5".data = some (5 / 2) ∧
    ∀ c ∈ (run noTime emptyTables none failQuery "1.5".data "2.5".data "key".data).queried,
      c.longitude = 3 / 2 ∧ c.latitude = 5 / 2 := by
  have hp0 : parseFloat "1.5".data = some (3 / 2) := by
    have hd : "1.5".data = ['1', '.', '5'] := rfl
    have h1 : List.dropWhile isDigit ['1', '.', '5'] = ['.', '5'] := by decide
    have h2 : List.takeWhile isDigit ['1', '.', '5'] = ['1'] := by decide
    have h3 : digitsToNat ['1'] = 1 := by decide
    have h4 : digitsToNat ['5'] = 5 := by decide
    have h5 : isDigit '5' = true := by decide
    rw [hd]
    simp [parseFloat, h1, h2, h3, h4, h5]
    norm_num
  have hp1 : parseFloat "2.5".data = some (5 / 2) := by
    have hd : "2.5".data = ['2', '.', '5'] := rfl
    have h1 : List.dropWhile isDigit ['2', '.', '5'] = ['.', '5'] := by decide
    have h2 : List.takeWhile isDigit ['2', '.', '5'] = ['2'] := by decide
    have h3 : digitsToNat ['2'] = 2 := by decide
    have h4 : digitsToNat ['5'] = 5 := by decide
    have h5 : isDigit '5' = true := by decide
    rw [hd]
    simp [parseFloat, h1, h2, h3, h4, h5]
    norm_num
  exact ⟨hp0, hp1,
   c1_coordinates_built_unswapped noTime emptyTables none failQuery
     "1.5".data "2.5".data "key".data (3 / 2) (5 / 2) hp0 hp1⟩

/-- C2: on a provider response whose weather-condition list is empty the
run does not end in any of the named `log.Fatalf` errors; it reaches the
unchecked index expression `request.Weather[0]` and dies with the
index-out-of-range panic of the runtime (exit code 2), contradicting the
claimed explicit check. -/
theorem c2_empty_weather_panics :
    (run noTime emptyTables none okQueryNoWeather "1".data "2".data "key".data).result =
      .panicIndexOutOfRange ∧
    exitCode (run noTime emptyTables none okQueryNoWeather "1".data "2".data "key".data).result
      = 2 := by
  have hp0 : parseFloat "1".data = some 1 := by
    have hd : "1".data = ['1'] := rfl
    have h1 : List.dropWhile isDigit ['1'] = [] := by decide
    have h2 : List.takeWhile isDigit ['1'] = ['1'] := by decide
    have h3 : digitsToNat ['1'] = 1 := by decide
    rw [hd]
    simp [parseFloat, h1, h2, h3]
  have hp1 : parseFloat "2".data = some 2 := by
    have hd : "2".data = ['2'] := rfl
    have h1 : List.dropWhile isDigit ['2'] = [] := by decide
    have h2 : List.takeWhile isDigit ['2'] = ['2'] := by decide
    have h3 : digitsToNat ['2'] = 2 := by decide
    rw [hd]
    simp [parseFloat, h1, h2, h3]
  constructor
  · simp [run, hp0, hp1, okQueryNoWeather, respNoWeather]
  · simp [run, hp0, hp1, okQueryNoWeather, respNoWeather, exitCode]

/-- C3: `description` returns the description of the first entry whose
ID matches in the concatenation of the seven groups in the source order
thunderstorm, drizzle, rain, snow, atmosphere, cloud, additional, and
the empty string when every entry misses, raising no error. -/
theorem c3_description_first_match_or_empty (tbl : ConditionTables) (id : ℤ) :
    description tbl id =
      (((tbl.thunderstorm ++ tbl.drizzle ++ tbl.rain ++ tbl.snow ++
         tbl.atmosphere ++ tbl.cloud ++ tbl.additional).find?
          (fun c => c.ID == id)).map ConditionData.Meaning).getD [] ∧
    ((∀ c ∈ tbl.thunderstorm ++ tbl.drizzle ++ tbl.rain ++ tbl.snow ++
         tbl.atmosphere ++ tbl.cloud ++ tbl.additional, c.ID ≠ id) →
      description tbl id = []) := by
  have hmain : description tbl id =
      (((tbl.thunderstorm ++ tbl.drizzle ++ tbl.rain ++ tbl.snow ++
         tbl.atmosphere ++ tbl.cloud ++ tbl.additional).find?
          (fun c => c.ID == id)).map ConditionData.Meaning).getD [] := by
    unfold description
    rw [searchGroups_eq]
    simp only [List.flatten_cons, List.flatten_nil, List.append_nil]
    rw [descGroup_eq_find?]
    simp [List.append_assoc]
  refine ⟨hmain, fun h => ?_⟩
  rw [hmain]
  have : (tbl.thunderstorm ++ tbl.drizzle ++ tbl.rain ++ tbl.snow ++
      tbl.atmosphere ++ tbl.cloud ++ tbl.additional).find?
        (fun c => c.ID == id) = none := by
    rw [List.find?_eq_none]
    intro c hc
    simpa using h c hc
  rw [this]
  rfl

/-- C3, witness: a one-entry thunderstorm table; ID 200 is found with
its description, the absent ID 201 yields the empty string. -/
theorem c3_witness :
    description ⟨[⟨200, "thunderstorm with light rain".data⟩], [], [], [], [], [], []⟩ 200 =
      "thunderstorm with light rain".data ∧
    description ⟨[⟨200, "thunderstorm with light rain".data⟩], [], [], [], [], [], []⟩ 201 =
      [] :=
  ⟨by
    have h := (c3_description_first_match_or_empty
      ⟨[⟨200, "thunderstorm with light rain".data⟩], [], [], [], [], [], []⟩ 200).1
    rw [h]
    decide,
   (c3_description_first_match_or_empty
      ⟨[⟨200, "thunderstorm with light rain".data⟩], [], [], [], [], [], []⟩ 201).2
     (by decide)⟩

/-- C6: every run either ends in success, writing to standard output
exactly the JSON serialisation of the one output record it built and
exiting with code 0, or ends in failure with nothing written to
standard output and a non-zero exit code. -/
theorem c6_single_output_or_no_output (fmtTime : ℤ → Str) (tbl : ConditionTables)
    (initErr : Option Str) (query : Coordinates → Except Str Response) (a0 a1 a2 : Str) :
    (∃ r, (run fmtTime tbl initErr query a0 a1 a2).result = .output r ∧
      (run fmtTime tbl initErr query a0 a1 a2).stdout = jsonMarshal r ∧
      exitCode (run fmtTime tbl initErr query a0 a1 a2).result = 0) ∨
    ((run fmtTime tbl initErr query a0 a1 a2).stdout = [] ∧
      exitCode (run fmtTime tbl initErr query a0 a1 a2).result ≠ 0) := by
  cases h0 : parseFloat a0 with
  | none => right; simp [run, h0, exitCode]
  | some v0 =>
    cases h1 : parseFloat a1 with
    | none => right; simp [run, h0, h1, exitCode]
    | some v1 =>
      cases initErr with
      | some e => right; simp [run, h0, h1, exitCode]
      | none =>
        cases hq : query ⟨v0, v1⟩ with
        | error e => right; simp [run, h0, h1, hq, exitCode]
        | ok resp =>
          cases hw : resp.weather with
          | nil => right; simp [run, h0, h1, hq, hw, exitCode]
          | cons w0 ws =>
            left
            exact ⟨buildResult fmtTime tbl resp w0,
              by simp [run, h0, h1, hq, hw],
              by simp [run, h0, h1, hq, hw],
              by simp [run, h0, h1, hq, hw, exitCode]⟩

/-- C7: when the first or the second positional argument fails to parse
as a decimal number, the run ends in the corresponding fatal parse
error with a non-zero exit code, the provider is never queried and
nothing is written to standard output. -/
theorem c7_parse_error_before_network (fmtTime : ℤ → Str) (tbl : ConditionTables)
    (initErr : Option Str) (query : Coordinates → Except Str Response) (a0 a1 a2 : Str)
    (h : parseFloat a0 = none ∨ parseFloat a1 = none) :
    (run fmtTime tbl initErr query a0 a1 a2).queried = [] ∧
    (run fmtTime tbl initErr query a0 a1 a2).stdout = [] ∧
    ((run fmtTime tbl initErr query a0 a1 a2).result = .fatalParseLong ∨
     (run fmtTime tbl initErr query a0 a1 a2).result = .fatalParseLat) ∧
    exitCode (run fmtTime tbl initErr query a0 a1 a2).result ≠ 0 := by
  cases h0 : parseFloat a0 with
  | none => simp [run, h0, exitCode]
  | some v0 =>
    rcases h with h | h
    · rw [h0] at h; cases h
    · simp [run, h0, h, exitCode]

/-- C7, witness at the non-numeric first argument "abc". -/
theorem c7_witness :
    parseFloat "abc".data = none ∧
    ((run noTime emptyTables none failQuery "abc".data "2".data "key".data).queried = [] ∧
     (run noTime emptyTables none failQuery "abc".data "2".data "key".data).stdout = [] ∧
     ((run noTime emptyTables none failQuery "abc".data "2".data "key".data).result =
        .fatalParseLong ∨
      (run noTime emptyTables none failQuery "abc".data "2".data "key".data).result =
        .fatalParseLat) ∧
     exitCode (run noTime emptyTables none failQuery "abc".data "2".data "key".data).result
       ≠ 0) :=
  ⟨by decide,
   c7_parse_error_before_network noTime emptyTables none failQuery
     "abc".data "2".data "key".data (Or.inl (by decide))⟩

/-- C8: the icon lookup returns the mapped pictogram for every key of
the table and the empty value for every unrecognized code, and a run
whose extracted weather entry carries any icon code still succeeds: the
unrecognized code degrades to no icon instead of failing the run. -/
theorem c8_icon_lookup_total :
    (∀ p ∈ icons, iconLookup p.1 = p.2) ∧
    (∀ code : Str, code ∉ icons.map Prod.fst → iconLookup code = []) ∧
    (∀ (fmtTime : ℤ → Str) (tbl : ConditionTables)
       (query : Coordinates → Except Str Response) (a0 a1 a2 : Str) (v0 v1 : ℚ)
       (resp : Response) (w0 : WeatherEntry) (ws : List WeatherEntry),
      parseFloat a0 = some v0 → parseFloat a1 = some v1 →
      query ⟨v0, v1⟩ = Except.ok resp → resp.weather = w0 :: ws →
      (run fmtTime tbl none query a0 a1 a2).result =
        .output (buildResult fmtTime tbl resp w0)) := by
  refine ⟨by decide, fun code hc => ?_, ?_⟩
  · unfold iconLookup
    rw [lookupStr_eq_none hc]
    rfl
  · intro fmtTime tbl query a0 a1 a2 v0 v1 resp w0 ws h0 h1 hq hw
    rw [run_success_eq fmtTime tbl query a0 a1 a2 v0 v1 resp w0 ws h0 h1 hq hw]

/-- C8, witness: the known code "01d" maps to its pictogram, the
unknown code "99x" maps to the empty string, and a run extracting the
unknown icon code "99x" still ends in success. -/
theorem c8_witness :
    iconLookup "01d".data = "☀️".data ∧
    iconLookup "99x".data = [] ∧
    (run noTime emptyTables none okQueryUnknownIcon "1".data "2".data "key".data).result =
      .output (buildResult noTime emptyTables respUnknownIcon ⟨"99x".data, 0⟩) := by
  have hp0 : parseFloat "1".data = some 1 := by
    have hd : "1".data = ['1'] := rfl
    have h1 : List.dropWhile isDigit ['1'] = [] := by decide
    have h2 : List.takeWhile isDigit ['1'] = ['1'] := by decide
    have h3 : digitsToNat ['1'] = 1 := by decide
    rw [hd]
    simp [parseFloat, h1, h2, h3]
  have hp1 : parseFloat "2".data = some 2 := by
    have hd : "2".data = ['2'] := rfl
    have h1 : List.dropWhile isDigit ['2'] = [] := by decide
    have h2 : List.takeWhile isDigit ['2'] = ['2'] := by decide
    have h3 : digitsToNat ['2'] = 2 := by decide
    rw [hd]
    simp [parseFloat, h1, h2, h3]
  exact ⟨c8_icon_lookup_total.1 ("01d".data, "☀️".data) (by decide),
   c8_icon_lookup_total.2.1 "99x".data (by decide),
   c8_icon_lookup_total.2.2 noTime emptyTables okQueryUnknownIcon
     "1".data "2".data "key".data 1 2 respUnknownIcon ⟨"99x".data, 0⟩ []
     hp0 hp1 rfl rfl⟩

/-- The nine two-digit code stems occurring in the icon table. -/
def iconStems : List Str :=
  ["01".data, "02".data, "03".data, "04".data, "09".data,
   "10".data, "11".data, "13".data, "50".data]

/-- C10: every key of the icon table is one of the nine two-digit stems
followed by 'd' or 'n', for each stem the day and the night variant map
to the identical non-empty pictogram, and the clear-night code "01n"
maps to the daytime sun pictogram. -/
theorem c10_day_night_same_pictogram :
    ((icons.map Prod.fst).all fun k =>
        iconStems.any fun p => k == p ++ ['d'] || k == p ++ ['n']) = true ∧
    (iconStems.all fun p =>
        (iconLookup (p ++ ['d']) == iconLookup (p ++ ['n'])) &&
        !(iconLookup (p ++ ['d']) == ([] : Str))) = true ∧
    iconLookup "01n".data = "☀️".data := by
  decide

/-- A natural number below ten prints as its single digit. -/
theorem natDigits_lt_ten {m : ℕ} (h : m < 10) : natDigits m = [digitChar m] := by
  simp [natDigits, natDigitsAux, h]

/-- The fixed-point format at precision 1 ends in a dot and one digit. -/
theorem formatFixed_one (q : ℚ) :
    formatFixed q 1 =
      ((if roundHalfEven (q * (10 : ℚ) ^ (1 : ℕ)) < 0 then ['-'] else []) ++
        natDigits ((roundHalfEven (q * (10 : ℚ) ^ (1 : ℕ))).natAbs / 10 ^ (1 : ℕ))) ++
        ['.', digitChar ((roundHalfEven (q * (10 : ℚ) ^ (1 : ℕ))).natAbs % 10 ^ (1 : ℕ))] := by
  have hm : (roundHalfEven (q * 10)).natAbs % 10 < 10 :=
    Nat.mod_lt _ (by norm_num)
  simp [formatFixed, pow_one, natDigits_lt_ten hm, padZeros, List.append_assoc]

/-- C5: the feels-like, pressure and humidity strings handed to the
tooltip are rendered from the integer `truncF` of the field, `truncF` is
truncation towards zero (below the magnitude, within one), truncation
and rounding differ at 1.9, and the wind speed is rendered as the
decimal string of an integer. -/
theorem c5_integer_fields_truncated :
    (∀ (fmtTime : ℤ → Str) (tbl : ConditionTables) (resp : Response) (w0 : WeatherEntry),
      (buildResult fmtTime tbl resp w0).tooltip =
        tooltip (description tbl w0.id)
          (formatIntStr (truncF resp.main.feelsLike))
          (formatIntStr (truncF resp.main.pressure))
          (formatIntStr (truncF resp.main.humidity))
          (fmtTime resp.sys.sunrise) (fmtTime resp.sys.sunset)
          (formatFixed resp.wind.speed 0)) ∧
    (∀ q : ℚ, 0 ≤ q → (truncF q : ℚ) ≤ q ∧ q - 1 < (truncF q : ℚ)) ∧
    (∀ q : ℚ, q < 0 → q ≤ (truncF q : ℚ) ∧ (truncF q : ℚ) < q + 1) ∧
    truncF (19 / 10) = 1 ∧ truncF (-(19 / 10)) = -1 ∧ roundHalfEven (19 / 10) = 2 ∧
    (∀ q : ℚ, formatFixed q 0 = formatIntStr (roundHalfEven q)) := by
  have hfl : ⌊(19 / 10 : ℚ)⌋ = 1 := by norm_num [Int.floor_eq_iff]
  refine ⟨?_, ?_, ?_, ?_, ?_, ?_, fun q => rfl⟩
  · intro fmtTime tbl resp w0
    simp only [buildResult]
  · intro q hq
    rw [truncF, if_pos hq]
    exact ⟨Int.floor_le q, by linarith [Int.lt_floor_add_one q]⟩
  · intro q hq
    rw [truncF, if_neg (not_le.mpr hq)]
    exact ⟨Int.le_ceil q, Int.ceil_lt_add_one q⟩
  · rw [truncF, if_pos (by norm_num)]
    exact hfl
  · rw [truncF, if_neg (by norm_num)]
    norm_num [Int.ceil_eq_iff]
  · rw [roundHalfEven]
    rw [hfl]
    norm_num

/-- C5, witness: the truncation bounds applied at 1.9 and -1.9. -/
theorem c5_witness :
    ((truncF (19 / 10) : ℚ) ≤ 19 / 10 ∧ (19 / 10 : ℚ) - 1 < (truncF (19 / 10) : ℚ)) ∧
    ((-(19 / 10) : ℚ) ≤ (truncF (-(19 / 10)) : ℚ) ∧
      (truncF (-(19 / 10)) : ℚ) < -(19 / 10) + 1) :=
  ⟨c5_integer_fields_truncated.2.1 (19 / 10) (by norm_num),
   c5_integer_fields_truncated.2.2.1 (-(19 / 10)) (by norm_num)⟩

/-- C9: the text formatter returns exactly icon, one space, the
temperature string and the literal suffix " °C"; on "☀️" and "21.3" it
returns "☀️ 21.3 °C"; the orchestrator builds the text field from the
icon and the temperature formatted at precision 1; and a string
formatted at precision 1 always ends in a dot followed by exactly one
digit, the dot occurring nowhere earlier. -/
theorem c9_text_concatenation :
    (∀ icon temp : Str, text icon temp = icon ++ " ".data ++ temp ++ " °C".data) ∧
    text "☀️".data "21.3".data = "☀️ 21.3 °C".data ∧
    (∀ (fmtTime : ℤ → Str) (tbl : ConditionTables) (resp : Response) (w0 : WeatherEntry),
      (buildResult fmtTime tbl resp w0).text =
        text (iconLookup w0.icon) (formatFixed resp.main.temp 1)) ∧
    (∀ q : ℚ, ∃ pre dgt, formatFixed q 1 = pre ++ ['.', dgt] ∧
      isDigit dgt = true ∧ '.' ∉ pre) := by
  refine ⟨fun _ _ => rfl, by decide, ?_, fun q => ?_⟩
  · intro fmtTime tbl resp w0
    simp only [buildResult]
  refine ⟨(if roundHalfEven (q * (10 : ℚ) ^ (1 : ℕ)) < 0 then ['-'] else []) ++
      natDigits ((roundHalfEven (q * (10 : ℚ) ^ (1 : ℕ))).natAbs / 10 ^ (1 : ℕ)),
    digitChar ((roundHalfEven (q * (10 : ℚ) ^ (1 : ℕ))).natAbs % 10 ^ (1 : ℕ)),
    formatFixed_one q, isDigit_digitChar _, ?_⟩
  intro hmem
  rcases List.mem_append.mp hmem with h | h
  · by_cases hneg : roundHalfEven (q * (10 : ℚ) ^ (1 : ℕ)) < 0
    · rw [if_pos hneg] at h
      simp at h
    · rw [if_neg hneg] at h
      simp at h
  · have := natDigitsAux_all_digits _ _ '.' h
    simp [isDigit] at this

/-- C4, counterexample: the claim quantifies over every seven string
inputs, but at the empty description (reachable in the program: an
unknown condition ID yields the empty description) the leading trim
removes the blank first line, so the tooltip has six lines and its
first line is "Feels like 20 °C", not the (empty) title-cased
description. -/
theorem c4_counterexample :
    titleCase [] = [] ∧
    splitLines (tooltip [] "20".data "1013".data "55".data
        "06:30 CET".data "18:45 CET".data "3".data) =
      ["Feels like 20 °C".data,
       "Pressure 1013 hPa".data,
       "Humidity 55%".data,
       "Sunrise 06:30 CET".data,
       "Sunset 18:45 CET".data,
       "Wind speed 3 m/sec".data] ∧
    (splitLines (tooltip [] "20".data "1013".data "55".data
        "06:30 CET".data "18:45 CET".data "3".data)).headI ≠ titleCase [] := by
  decide

/-- C4, amended: whenever the title-cased description is non-empty,
starts with a non-space character and, like the six field strings,
contains no newline, the tooltip consists of exactly seven
newline-separated lines: the title-cased description first, then the
labelled lines Feels like, Pressure, Humidity, Sunrise, Sunset, Wind
speed in this order; and the result is non-empty with no leading
whitespace. -/
theorem c4_tooltip_seven_lines (d fl pr hu sr ss ws : Str) (c : Char) (cs : Str)
    (hd : titleCase d = c :: cs) (hc : isSpace c = false)
    (h0 : '\n' ∉ titleCase d) (h1 : '\n' ∉ fl) (h2 : '\n' ∉ pr) (h3 : '\n' ∉ hu)
    (h4 : '\n' ∉ sr) (h5 : '\n' ∉ ss) (h6 : '\n' ∉ ws) :
    splitLines (tooltip d fl pr hu sr ss ws) =
      [titleCase d,
       "Feels like ".data ++ fl ++ " °C".data,
       "Pressure ".data ++ pr ++ " hPa".data,
       "Humidity ".data ++ hu ++ "%".data,
       "Sunrise ".data ++ sr,
       "Sunset ".data ++ ss,
       "Wind speed ".data ++ ws ++ " m/sec".data] ∧
    tooltip d fl pr hu sr ss ws ≠ [] ∧
    isSpace ((tooltip d fl pr hu sr ss ws).headI) = false := by
  have l1 : "\n".data = ['\n'] := rfl
  have l2 : " °C\n".data = " °C".data ++ ['\n'] := rfl
  have l3 : " hPa\n".data = " hPa".data ++ ['\n'] := rfl
  have l4 : "%\n".data = "%".data ++ ['\n'] := rfl
  have e : tooltip d fl pr hu sr ss ws =
      titleCase d ++ '\n' :: ("Feels like ".data ++ fl ++ " °C".data ++ '\n' ::
        ("Pressure ".data ++ pr ++ " hPa".data ++ '\n' ::
        ("Humidity ".data ++ hu ++ "%".data ++ '\n' ::
        ("Sunrise ".data ++ sr ++ '\n' ::
        ("Sunset ".data ++ ss ++ '\n' ::
        ("Wind speed ".data ++ ws ++ " m/sec".data)))))) := by
    rw [tooltip, hd]
    simp [trimLeftSpace, List.dropWhile_cons, hc, l1, l2, l3, l4,
      List.append_assoc, List.cons_append]
  have m1 : '\n' ∉ "Feels like ".data ++ fl ++ " °C".data := by
    simp only [List.mem_append, not_or]
    exact ⟨⟨by decide, h1⟩, by decide⟩
  have m2 : '\n' ∉ "Pressure ".data ++ pr ++ " hPa".data := by
    simp only [List.mem_append, not_or]
    exact ⟨⟨by decide, h2⟩, by decide⟩
  have m3 : '\n' ∉ "Humidity ".data ++ hu ++ "%".data := by
    simp only [List.mem_append, not_or]
    exact ⟨⟨by decide, h3⟩, by decide⟩
  have m4 : '\n' ∉ "Sunrise ".data ++ sr := by
    simp only [List.mem_append, not_or]
    exact ⟨by decide, h4⟩
  have m5 : '\n' ∉ "Sunset ".data ++ ss := by
    simp only [List.mem_append, not_or]
    exact ⟨by decide, h5⟩
  have m6 : '\n' ∉ "Wind speed ".data ++ ws ++ " m/sec".data := by
    simp only [List.mem_append, not_or]
    exact ⟨⟨by decide, h6⟩, by decide⟩
  refine ⟨?_, ?_, ?_⟩
  · rw [e, splitLines_append _ h0, splitLines_append _ m1, splitLines_append _ m2,
      splitLines_append _ m3, splitLines_append _ m4, splitLines_append _ m5,
      splitLines_no_newline m6]
  · rw [e, hd]
    simp
  · rw [e, hd]
    simp [hc]

/-- C4, witness at the example inputs given in the specification. -/
theorem c4_witness :
    splitLines (tooltip "clear sky".data "20".data "1013".data "55".data
        "06:30 CET".data "18:45 CET".data "3".data) =
      [titleCase "clear sky".data,
       "Feels like ".data ++ "20".data ++ " °C".data,
       "Pressure ".data ++ "1013".data ++ " hPa".data,
       "Humidity ".data ++ "55".data ++ "%".data,
       "Sunrise ".data ++ "06:30 CET".data,
       "Sunset ".data ++ "18:45 CET".data,
       "Wind speed ".data ++ "3".data ++ " m/sec".data] ∧
    tooltip "clear sky".data "20".data "1013".data "55".data
        "06:30 CET".data "18:45 CET".data "3".data ≠ [] ∧
    isSpace ((tooltip "clear sky".data "20".data "1013".data "55".data
        "06:30 CET".data "18:45 CET".data "3".data).headI) = false :=
  c4_tooltip_seven_lines "clear sky".data "20".data "1013".data "55".data
    "06:30 CET".data "18:45 CET".data "3".data 'C' "lear Sky".data
    (by decide) (by decide) (by decide) (by decide) (by decide) (by decide)
    (by decide) (by decide) (by decide)

end OWM
